import Mathlib

/-!
Shallow embedding of the token-trust pipeline clients of the repository
(src/src/clients/JwksClient.ts, the DiscoveryClient known from its test file,
and the SignatureVerifier described by the specification).

Effectful TypeScript methods are embedded as pure Lean functions over an
explicit environment: every result of a sub-call with an external effect
(an HTTP fetch outcome, whether a TTL-cache read finds the entry expired)
is a parameter, and the cache state is threaded explicitly.  The JavaScript
runtime is single threaded with run-to-completion semantics, so the
check-and-set of the in-flight promise in ensureJWKS is atomic; the
single-flight behaviour is embedded as a small labelled transition system.
-/

namespace Oidc

/-- Structured error thrown by the clients (src/errors/ClientError).  Its
implementation file is not under src/; the shape is taken from its call
sites: a message, a machine-readable code, and an optional third context
argument carrying the wrapped original cause (passed e.g. by
UserInfoClient, never passed by JwksClient). -/
structure ClientError where
  message : String
  code : String
  context : Option String
deriving DecidableEq

/-- An arbitrary JavaScript error value: either a typed ClientError or any
other thrown value, identified by a descriptive string. -/
inductive JsError where
  | client (e : ClientError) : JsError
  | other (name : String) : JsError
deriving DecidableEq

/-- A JSON Web Key.  findKey compares only the kid field; the kty field is
kept so that two distinct keys may share a kid. -/
structure Jwk where
  kid : String
  kty : String
deriving DecidableEq

/-- The value found at the keys field of a parsed JWKS response body:
absent covers every falsy JavaScript value (undefined, null, 0, empty
string), nonArray a truthy value that is not an array, arr a real array.
The check in validateJwks is `!jwks.keys || !Array.isArray(jwks.keys)`. -/
inductive KeysField where
  | absent : KeysField
  | nonArray : KeysField
  | arr (l : List Jwk) : KeysField
deriving DecidableEq

/-- A parsed JWKS response object (the JwksResponse interface): only its
keys field is inspected by the client. -/
structure JwksResponse where
  keys : KeysField
deriving DecidableEq

/-- Outcome of JSON.parse on the response body.  malformed covers a body
JSON.parse rejects; nullDoc the body null, on which JSON.parse succeeds
yielding null and the later property access jwks.keys in validateJwks
throws a TypeError (null is the only JSON.parse output with that effect:
numbers, strings and booleans box and yield an undefined keys property,
and an array exposes the built-in keys method, a truthy non-array — all
covered by JwksResponse); json any other successfully parsed document,
described by what its keys property access yields. -/
inductive ParseResult where
  | malformed : ParseResult
  | nullDoc : ParseResult
  | json (r : JwksResponse) : ParseResult
deriving DecidableEq

/-- Outcome of `await httpClient.get(jwksUri)`: a thrown transport error,
or a response body together with how JSON.parse treats it. -/
inductive FetchOutcome where
  | transportError (e : JsError) : FetchOutcome
  | body (p : ParseResult) : FetchOutcome
deriving DecidableEq

/-- The JWKS cache slot under the single cache key, as the client writes
it: the stored key list together with the TTL passed to cache.set. -/
abbrev JwksCache : Type := Option (List Jwk × Nat)

/-- JwksClient.handleFetchError (src/src/clients/JwksClient.ts lines
214-220): a ClientError is rethrown unchanged; any other error is replaced
by a fresh ClientError with code JWKS_FETCH_ERROR, fixed message, and no
attached cause (the original error is only logged). -/
def handleFetchError : JsError → ClientError
  | .client e => e
  | .other _ => ⟨"Failed to fetch JWKS", "JWKS_FETCH_ERROR", none⟩

/-- The ClientError thrown on a JSON.parse failure (lines 158-161). -/
def jwksParseError : ClientError :=
  ⟨"Invalid JWKS response format", "JWKS_PARSE_ERROR", none⟩

/-- The ClientError thrown by validateJwks (lines 198-201). -/
def jwksInvalidError : ClientError :=
  ⟨"JWKS response does not contain keys", "JWKS_INVALID", none⟩

/-- JwksClient.refreshCache (lines 148-172): fetch, parse, validate, and
only then cache.set; every raised error flows through the surrounding
try/catch into handleFetchError.  On the parsed body null, the access
jwks.keys at line 194 throws a TypeError, which the catch hands to
handleFetchError as a non-ClientError.  Returns the call result paired
with the cache state after the call. -/
def refreshCache (f : FetchOutcome) (cache : JwksCache) (cacheTtl : Nat) :
    Except ClientError Unit × JwksCache :=
  match f with
  | .transportError e => (.error (handleFetchError e), cache)
  | .body .malformed => (.error (handleFetchError (.client jwksParseError)), cache)
  | .body .nullDoc => (.error (handleFetchError (.other "TypeError")), cache)
  | .body (.json r) =>
    match r.keys with
    | .arr keys => (.ok (), some (keys, cacheTtl))
    | .absent => (.error (handleFetchError (.client jwksInvalidError)), cache)
    | .nonArray => (.error (handleFetchError (.client jwksInvalidError)), cache)

/-- JwksClient.findKey (lines 134-136): `jwks.find((k) => k.kid === kid)`. -/
def findKey (jwks : List Jwk) (kid : String) : Option Jwk :=
  jwks.find? (fun k => k.kid == kid)

/-- One read of the TTL cache: the ICache contract makes a get past the
entry's expiry behave as absent, so each read carries a flag saying
whether the entry (if any) has expired at that instant. -/
def cacheRead (expired : Bool) (c : JwksCache) : Option (List Jwk) :=
  if expired then none else c.map Prod.fst

/-- Result of a getKey call: a returned key, a thrown ClientError, or the
JavaScript TypeError raised when `jwks.find` is invoked on undefined
(reachable at line 98 when the cache is empty after the second refresh). -/
inductive GetKeyOutcome where
  | ok (k : Jwk) : GetKeyOutcome
  | err (e : ClientError) : GetKeyOutcome
  | typeErrorCrash : GetKeyOutcome
deriving DecidableEq

/-- The environment of one getKey call: the initial cache slot, whether
the entry is expired at each of the (up to three) cache.get calls, and
the outcome of each of the (up to two) network fetches the call may
trigger through ensureJWKS. -/
structure GetKeyEnv where
  cache0 : JwksCache
  expire1 : Bool
  expire2 : Bool
  expire3 : Bool
  fetch1 : FetchOutcome
  fetch2 : FetchOutcome

/-- The ClientError thrown at lines 86-89. -/
def emptyAfterRefreshError : ClientError :=
  ⟨"JWKS cache is empty after refresh", "JWKS_FETCH_ERROR", none⟩

/-- The ClientError thrown at lines 100-103. -/
def keyNotFoundError (kid : String) : ClientError :=
  ⟨"No matching key found for kid " ++ kid, "JWKS_KEY_NOT_FOUND", none⟩

/-- The ClientError thrown at line 76. -/
def invalidKidError : ClientError :=
  ⟨"kid must be provided", "INVALID_KID", none⟩

/-- Lines 93-106 of getKey: scan the set in hand; on a miss run ensureJWKS
a further time, re-read the cache and re-scan.  Within a single awaited
call each ensureJWKS finds the in-flight marker cleared and so starts its
own refreshCache; n counts the refreshes triggered so far and the second
component of the result is the total count for the call. -/
def getKeyRescan (kid : String) (cacheTtl : Nat) (jwks : List Jwk)
    (cacheCur : JwksCache) (e3 : Bool) (f2 : FetchOutcome) (n : Nat) :
    GetKeyOutcome × Nat :=
  match findKey jwks kid with
  | some k => (.ok k, n)
  | none =>
    match refreshCache f2 cacheCur cacheTtl with
    | (.error e, _) => (.err e, n + 1)
    | (.ok _, cache2) =>
      match cacheRead e3 cache2 with
      | none => (.typeErrorCrash, n + 1)
      | some jwks2 =>
        match findKey jwks2 kid with
        | some k => (.ok k, n + 1)
        | none => (.err (keyNotFoundError kid), n + 1)

/-- JwksClient.getKey (lines 74-107), with the number of refreshCache
operations the call triggers as second component. -/
def getKey (kid : String) (cacheTtl : Nat) (env : GetKeyEnv) :
    GetKeyOutcome × Nat :=
  if kid = "" then (.err invalidKidError, 0)
  else
    match cacheRead env.expire1 env.cache0 with
    | some jwks => getKeyRescan kid cacheTtl jwks env.cache0 env.expire3 env.fetch2 0
    | none =>
      match refreshCache env.fetch1 env.cache0 cacheTtl with
      | (.error e, _) => (.err e, 1)
      | (.ok _, cache1) =>
        match cacheRead env.expire2 cache1 with
        | none => (.err emptyAfterRefreshError, 1)
        | some jwks => getKeyRescan kid cacheTtl jwks cache1 env.expire3 env.fetch2 1

/-!
Single-flight coalescing in JwksClient.ensureJWKS (lines 117-124).  The
field fetchingJWKS holds the pending promise or null; a trigger finding it
null installs `refreshCache().finally(() => fetchingJWKS = null)` and every
trigger awaits the stored promise.  JavaScript runs each synchronous block
to completion, so the null check and the assignment are atomic.  The
embedding is a labelled transition system: refreshCache operations get
sequential identifiers, the state keeps the marker (fetchingJWKS) and the
identifiers of the operations started but not yet settled. -/

/-- An event of the single-flight system: an ensureJWKS trigger, or the
settling of the pending refreshCache with success or failure. -/
inductive SfEv where
  | trigger : SfEv
  | complete (success : Bool) : SfEv
deriving DecidableEq

/-- The single-flight state: marker is the identifier held by
fetchingJWKS (none when the field is null), running lists the refreshCache
operations started and not yet settled, nextId numbers the next one. -/
structure SfState where
  marker : Option Nat
  running : List Nat
  nextId : Nat
deriving DecidableEq

/-- The state of a fresh JwksClient: fetchingJWKS is null, nothing runs. -/
def sfInit : SfState := ⟨none, [], 0⟩

/-- An ensureJWKS call: if the marker is null it starts a new refreshCache
and installs it; otherwise it leaves the state unchanged.  The second
component is the identifier of the operation the caller awaits. -/
def sfTrigger (s : SfState) : SfState × Nat :=
  match s.marker with
  | none => (⟨some s.nextId, s.nextId :: s.running, s.nextId + 1⟩, s.nextId)
  | some id => (s, id)

/-- Settling of the pending refreshCache (success or failure alike): the
finally handler sets fetchingJWKS back to null and the operation leaves
the running set.  With no pending operation nothing settles. -/
def sfComplete (s : SfState) : SfState :=
  match s.marker with
  | some id => ⟨none, s.running.erase id, s.nextId⟩
  | none => s

/-- One step of the single-flight system. -/
def sfStep (s : SfState) : SfEv → SfState
  | .trigger => (sfTrigger s).1
  | .complete _ => sfComplete s

/-- The state after a sequence of events from a fresh client. -/
def sfRun (evs : List SfEv) : SfState :=
  evs.foldl sfStep sfInit

/-- The single-flight invariant: the running operations are exactly the
one the marker points to, or none at all. -/
def sfInv (s : SfState) : Prop :=
  match s.marker with
  | some id => s.running = [id]
  | none => s.running = []

/-!
DiscoveryClient.  Its implementation file is not under src/ — only its
test file (src/unnamed/part_001) is — so the operation is modelled from
the specification, with messages and codes pinned by the test file.
-/

/-- A parsed discovery document before validation: only the two fields
the validation inspects are kept; none covers an absent field. -/
structure RawDiscoveryConfig where
  issuer : Option String
  jwks_uri : Option String
deriving DecidableEq

/-- Outcome of fetching the discovery URL: a thrown transport error, a
body JSON.parse rejects, or a parsed document. -/
inductive DiscoveryFetch where
  | transportError (e : String) : DiscoveryFetch
  | parseFail : DiscoveryFetch
  | doc (c : RawDiscoveryConfig) : DiscoveryFetch
deriving DecidableEq

/-- Modelled from the spec: validation of the discovery document (spec
section 4.2; DiscoveryClient.ts is not under src/).  issuer and jwks_uri
must be present, non-empty strings; a failure names the missing field with
code INVALID_DISCOVERY_CONFIG, as the test file asserts. -/
def validateDiscoveryConfig (c : RawDiscoveryConfig) :
    Except ClientError RawDiscoveryConfig :=
  match c.issuer with
  | none => .error ⟨"Invalid discovery configuration: Missing or invalid issuer.",
      "INVALID_DISCOVERY_CONFIG", none⟩
  | some s =>
    if s = "" then
      .error ⟨"Invalid discovery configuration: Missing or invalid issuer.",
        "INVALID_DISCOVERY_CONFIG", none⟩
    else
      match c.jwks_uri with
      | none => .error ⟨"Invalid discovery configuration: Missing or invalid jwks_uri.",
          "INVALID_DISCOVERY_CONFIG", none⟩
      | some u =>
        if u = "" then
          .error ⟨"Invalid discovery configuration: Missing or invalid jwks_uri.",
            "INVALID_DISCOVERY_CONFIG", none⟩
        else .ok c

/-- Modelled from the spec: the fetch-parse-validate-cache sequence of
DiscoveryClient.getDiscoveryConfig (spec section 4.2; the test file pins
the DISCOVERY_ERROR message and the wrapped original cause).  Returns the
result, the cache slot after the call, and whether a network fetch was
performed. -/
def fetchDiscovery (cache : Option RawDiscoveryConfig) (fetch : DiscoveryFetch) :
    Except ClientError RawDiscoveryConfig × Option RawDiscoveryConfig × Bool :=
  match fetch with
  | .transportError e =>
    (.error ⟨"Unable to fetch discovery configuration", "DISCOVERY_ERROR", some e⟩,
      cache, true)
  | .parseFail =>
    (.error ⟨"Unable to fetch discovery configuration", "DISCOVERY_ERROR",
      some "SyntaxError"⟩, cache, true)
  | .doc c =>
    match validateDiscoveryConfig c with
    | .error err => (.error err, cache, true)
    | .ok c2 => (.ok c2, some c2, true)

/-- Modelled from the spec: DiscoveryClient.getDiscoveryConfig (spec
section 4.2; DiscoveryClient.ts is not under src/, only its test).  When
not forcing and the cache holds a live entry, that entry is returned with
no fetch; otherwise the document is fetched, validated and, on success
only, written to the cache.  The test asserts cache.get is not consulted
at all when forceRefresh is true. -/
def getDiscoveryConfig (forceRefresh : Bool) (cache : Option RawDiscoveryConfig)
    (fetch : DiscoveryFetch) :
    Except ClientError RawDiscoveryConfig × Option RawDiscoveryConfig × Bool :=
  match forceRefresh, cache with
  | false, some c => (.ok c, some c, false)
  | false, none => fetchDiscovery none fetch
  | true, _ => fetchDiscovery cache fetch

/-- Modelled from the spec: SignatureVerifier.verify (spec section 4.5;
src/utils/SignatureVerifier.ts is not under src/).  The algorithm gate is
checked first: alg equal to "none" or outside allowedAlgs is rejected
unconditionally.  The cryptographic primitive behind the gate (digest and
scheme dispatch plus the actual verification) is abstracted as the
function argument crypto from the key, the signing input and the
signature bytes. -/
def verify (signingInput : List Nat) (signature : List Nat) (alg : String)
    (publicKeyPem : String) (allowedAlgs : List String)
    (crypto : String → List Nat → List Nat → Bool) : Bool :=
  if alg == "none" || !(allowedAlgs.contains alg) then false
  else crypto publicKeyPem signingInput signature

/-- A getKey environment with an empty initial cache whose two fetches
both deliver a key set holding only the kid k2. -/
def staleEnvC1 : GetKeyEnv :=
  ⟨none, false, false, false,
    .body (.json ⟨.arr [⟨"k2", "RSA"⟩]⟩), .body (.json ⟨.arr [⟨"k2", "RSA"⟩]⟩)⟩

/-- A getKey environment with a live cached set holding only the kid a,
whose forced refresh delivers a set holding only the kid b. -/
def liveEnvC1 : GetKeyEnv :=
  ⟨some ([⟨"a", "RSA"⟩], 7), false, false, false,
    .body .malformed, .body (.json ⟨.arr [⟨"b", "RSA"⟩]⟩)⟩

/-! Theorems settling the claims. -/

/-- The rescan phase triggers at most one further refresh. -/
theorem getKeyRescan_count_le (kid : String) (ttl : Nat) (jwks : List Jwk)
    (c : JwksCache) (e3 : Bool) (f2 : FetchOutcome) (n : Nat) :
    (getKeyRescan kid ttl jwks c e3 f2 n).2 ≤ n + 1 := by
  unfold getKeyRescan
  rcases h : findKey jwks kid with _ | k
  · rcases h2 : refreshCache f2 c ttl with ⟨r, c2⟩
    cases r with
    | error e => simp [h, h2]
    | ok u =>
      rcases h3 : cacheRead e3 c2 with _ | jwks2
      · simp [h, h2, h3]
      · rcases h4 : findKey jwks2 kid with _ | k2
        · simp [h, h2, h3, h4]
        · simp [h, h2, h3, h4]
  · simp [h]

/-- Claim C3: every failing execution of refreshCache (transport error,
JSON parse error, or invalid JWKS shape) leaves the cache slot exactly as
it was — no cache write occurs on any failure path. -/
theorem refreshCache_error_preserves_cache (f : FetchOutcome) (c : JwksCache)
    (ttl : Nat) (e : ClientError) :
    (refreshCache f c ttl).1 = .error e → (refreshCache f c ttl).2 = c := by
  intro h
  cases f with
  | transportError e0 => rfl
  | body p =>
    cases p with
    | malformed => rfl
    | nullDoc => rfl
    | json r =>
      cases hk : r.keys with
      | absent => simp [refreshCache, hk]
      | nonArray => simp [refreshCache, hk]
      | arr keys => simp [refreshCache, hk] at h

/-- Witness for C3: a concrete transport failure against an empty cache
leaves the cache empty. -/
theorem refreshCache_error_preserves_cache_witness :
    (refreshCache (.transportError (.other "ECONNRESET")) none 0).2 = none :=
  refreshCache_error_preserves_cache (.transportError (.other "ECONNRESET")) none 0
    ⟨"Failed to fetch JWKS", "JWKS_FETCH_ERROR", none⟩ rfl

/-- Counterexample for claim C5: the claim says a transport failure is
wrapped into a JWKS_FETCH_ERROR error wrapping the cause; at the concrete
transport error named boom the thrown ClientError carries code
JWKS_FETCH_ERROR but its context field is none — the cause is not
attached (handleFetchError only logs it). -/
theorem refreshCache_cause_not_wrapped_counterexample :
    (refreshCache (.transportError (.other "boom")) none 0).1 =
      .error ⟨"Failed to fetch JWKS", "JWKS_FETCH_ERROR", none⟩ ∧
    (none : Option String) ≠ some "boom" :=
  ⟨rfl, by decide⟩

/-- Claim C5 as amended: a transport failure makes refreshCache throw a
ClientError with code JWKS_FETCH_ERROR and the fixed message, without the
original cause attached; an error that is already a ClientError is
rethrown unchanged, its code preserved. -/
theorem refreshCache_transport_error_codes (c : JwksCache) (ttl : Nat) :
    (∀ ce : ClientError,
      (refreshCache (.transportError (.client ce)) c ttl).1 = .error ce) ∧
    (∀ s : String,
      (refreshCache (.transportError (.other s)) c ttl).1 =
        .error ⟨"Failed to fetch JWKS", "JWKS_FETCH_ERROR", none⟩) :=
  ⟨fun _ => rfl, fun _ => rfl⟩

/-- Counterexample for claim C6: the claim says every parseable response
lacking a keys array fails with code JWKS_INVALID.  The body null is
parseable — JSON.parse succeeds yielding null — and lacks a keys array,
yet the keys property access in validateJwks throws a TypeError, which
handleFetchError converts to the JWKS_FETCH_ERROR error, not to
JWKS_INVALID. -/
theorem refreshCache_null_body_counterexample :
    (refreshCache (.body .nullDoc) none 0).1 =
      .error ⟨"Failed to fetch JWKS", "JWKS_FETCH_ERROR", none⟩ ∧
    (⟨"Failed to fetch JWKS", "JWKS_FETCH_ERROR", none⟩ : ClientError) ≠
      jwksInvalidError :=
  ⟨rfl, by decide⟩

/-- Claim C6 as amended: a response body that JSON.parse rejects fails
with code JWKS_PARSE_ERROR; a parsed document whose keys property is
absent (falsy) or not an array fails with code JWKS_INVALID; except that
the parseable body null makes the keys property access in validateJwks
throw a TypeError, which surfaces as the JWKS_FETCH_ERROR error instead. -/
theorem refreshCache_shape_classification (c : JwksCache) (ttl : Nat) :
    jwksParseError.code = "JWKS_PARSE_ERROR" ∧
    jwksInvalidError.code = "JWKS_INVALID" ∧
    ((refreshCache (.body .malformed) c ttl).1 = .error jwksParseError) ∧
    (∀ kf : KeysField, kf = .absent ∨ kf = .nonArray →
      (refreshCache (.body (.json ⟨kf⟩)) c ttl).1 = .error jwksInvalidError) ∧
    ((refreshCache (.body .nullDoc) c ttl).1 =
      .error ⟨"Failed to fetch JWKS", "JWKS_FETCH_ERROR", none⟩) := by
  refine ⟨rfl, rfl, rfl, ?_, rfl⟩
  intro kf h
  rcases h with h | h <;> subst h <;> rfl

/-- Witness for C6 as amended: against an empty cache, the concrete
malformed body, the concrete document with an absent keys property, and
the concrete null body produce the three errors. -/
theorem refreshCache_shape_classification_witness :
    (refreshCache (.body .malformed) none 0).1 = .error jwksParseError ∧
    (refreshCache (.body (.json ⟨.absent⟩)) none 0).1 = .error jwksInvalidError ∧
    (refreshCache (.body .nullDoc) none 0).1 =
      .error ⟨"Failed to fetch JWKS", "JWKS_FETCH_ERROR", none⟩ :=
  ⟨(refreshCache_shape_classification none 0).2.2.1,
   (refreshCache_shape_classification none 0).2.2.2.1 .absent (Or.inl rfl),
   (refreshCache_shape_classification none 0).2.2.2.2⟩

/-- Claim C7: every successful refreshCache replaces the cache slot
wholesale with the freshly fetched keys sequence under the configured
TTL, whatever the slot held before — the old set is not merged in. -/
theorem refreshCache_success_overwrites (c : JwksCache) (ttl : Nat)
    (keys : List Jwk) :
    refreshCache (.body (.json ⟨.arr keys⟩)) c ttl = (.ok (), some (keys, ttl)) :=
  rfl

/-- Claim C8: findKey returns the first entry in sequence order whose kid
matches, so with duplicate kids the earliest wins, and a getKey call whose
first cache read yields a set holding the kid returns that first match
directly with no refresh.  kid uniqueness is nowhere assumed. -/
theorem findKey_first_match :
    (∀ (pre post : List Jwk) (k : Jwk) (kid : String),
      (∀ j ∈ pre, j.kid ≠ kid) → k.kid = kid →
      findKey (pre ++ k :: post) kid = some k) ∧
    (∀ (kid : String) (ttl : Nat) (env : GetKeyEnv) (jwks : List Jwk) (k : Jwk),
      kid ≠ "" → cacheRead env.expire1 env.cache0 = some jwks →
      findKey jwks kid = some k → getKey kid ttl env = (.ok k, 0)) := by
  constructor
  · intro pre post k kid hpre hk
    induction pre with
    | nil =>
      simp [findKey, List.find?_cons, hk]
    | cons j rest ih =>
      have hj : (j.kid == kid) = false := by simpa using hpre j (by simp)
      have hrest : ∀ x ∈ rest, x.kid ≠ kid := fun x hm => hpre x (by simp [hm])
      simpa [findKey, List.find?_cons, hj] using ih hrest
  · intro kid ttl env jwks k hkid hread hfind
    simp [getKey, hkid, hread, getKeyRescan, hfind]

/-- Witness for C8: in a set holding two keys with kid dup (an RSA one
first, an EC one second) the lookup returns the first, and a getKey call
over a live cache holding that set returns it with zero refreshes. -/
theorem findKey_first_match_witness :
    findKey [⟨"a", "RSA"⟩, ⟨"dup", "RSA"⟩, ⟨"dup", "EC"⟩] "dup" = some ⟨"dup", "RSA"⟩ ∧
    getKey "dup" 9
      ⟨some ([⟨"a", "RSA"⟩, ⟨"dup", "RSA"⟩, ⟨"dup", "EC"⟩], 3), false, false, false,
        .body .malformed, .body .malformed⟩ = (.ok ⟨"dup", "RSA"⟩, 0) :=
  ⟨findKey_first_match.1 [⟨"a", "RSA"⟩] [⟨"dup", "EC"⟩] ⟨"dup", "RSA"⟩ "dup"
      (by decide) rfl,
   findKey_first_match.2 "dup" 9
      ⟨some ([⟨"a", "RSA"⟩, ⟨"dup", "RSA"⟩, ⟨"dup", "EC"⟩], 3), false, false, false,
        .body .malformed, .body .malformed⟩
      [⟨"a", "RSA"⟩, ⟨"dup", "RSA"⟩, ⟨"dup", "EC"⟩] ⟨"dup", "RSA"⟩
      (by decide) rfl (by decide)⟩

/-- Claim C10: when getKey sees an initial cache miss, the triggered
refresh completes without error, and the cache read after the refresh
still yields nothing, the call fails with the JWKS_FETCH_ERROR error
whose message is JWKS cache is empty after refresh — not with
JWKS_KEY_NOT_FOUND. -/
theorem getKey_empty_after_refresh :
    emptyAfterRefreshError =
      ⟨"JWKS cache is empty after refresh", "JWKS_FETCH_ERROR", none⟩ ∧
    ∀ (kid : String) (ttl : Nat) (env : GetKeyEnv),
      kid ≠ "" →
      cacheRead env.expire1 env.cache0 = none →
      (refreshCache env.fetch1 env.cache0 ttl).1 = .ok () →
      cacheRead env.expire2 (refreshCache env.fetch1 env.cache0 ttl).2 = none →
      getKey kid ttl env = (.err emptyAfterRefreshError, 1) := by
  refine ⟨rfl, ?_⟩
  intro kid ttl env hkid hread1 hok hread2
  rcases hrc : refreshCache env.fetch1 env.cache0 ttl with ⟨r1, cache1⟩
  rw [hrc] at hok hread2
  simp at hok hread2
  subst hok
  simp [getKey, hkid, hread1, hrc, hread2]

/-- Witness for C10: an empty cache, a successful fetch of an empty key
list, and an entry already expired at the post-refresh read produce the
empty-after-refresh JWKS_FETCH_ERROR. -/
theorem getKey_empty_after_refresh_witness :
    getKey "k1" 0
      ⟨none, false, true, false, .body (.json ⟨.arr []⟩), .body (.json ⟨.arr []⟩)⟩ =
      (.err emptyAfterRefreshError, 1) :=
  getKey_empty_after_refresh.2 "k1" 0
    ⟨none, false, true, false, .body (.json ⟨.arr []⟩), .body (.json ⟨.arr []⟩)⟩
    (by decide) rfl rfl rfl

/-- Claim C4: verify rejects whenever alg is the string none or alg is
outside allowedAlgs, for every signing input, signature, key and
cryptographic primitive — the rejection is unconditional and independent
of the signature bytes. -/
theorem verify_rejects_disallowed_alg (signingInput signatureBytes : List Nat)
    (alg pem : String) (allowed : List String)
    (crypto : String → List Nat → List Nat → Bool) :
    alg = "none" ∨ allowed.contains alg = false →
    verify signingInput signatureBytes alg pem allowed crypto = false := by
  intro h
  rcases h with h | h
  · subst h
    simp [verify]
  · have hg : (alg == "none" || !(allowed.contains alg)) = true := by
      rw [h]
      simp
    unfold verify
    rw [hg]
    simp

/-- Witness for C4: a token offering alg none with a primitive that would
accept anything is still rejected, at concrete inputs. -/
theorem verify_rejects_disallowed_alg_witness :
    verify [1, 2] [3, 4] "none" "pem" ["RS256"] (fun _ _ _ => true) = false :=
  verify_rejects_disallowed_alg [1, 2] [3, 4] "none" "pem" ["RS256"]
    (fun _ _ _ => true) (Or.inl rfl)

/-- Claim C9: getDiscoveryConfig with forceRefresh true performs the
network fetch for every cache state (it never serves the live entry), and
whenever the fetch-validate sequence succeeds the freshly fetched document
is written to the cache. -/
theorem getDiscoveryConfig_force_refresh (cache : Option RawDiscoveryConfig)
    (fetch : DiscoveryFetch) :
    (getDiscoveryConfig true cache fetch).2.2 = true ∧
    (∀ c, (getDiscoveryConfig true cache fetch).1 = .ok c →
      (getDiscoveryConfig true cache fetch).2.1 = some c) := by
  cases fetch with
  | transportError e => exact ⟨rfl, by simp [getDiscoveryConfig, fetchDiscovery]⟩
  | parseFail => exact ⟨rfl, by simp [getDiscoveryConfig, fetchDiscovery]⟩
  | doc c0 =>
    constructor
    · simp only [getDiscoveryConfig, fetchDiscovery]
      rcases validateDiscoveryConfig c0 with e | c2 <;> rfl
    · intro c hc
      simp only [getDiscoveryConfig, fetchDiscovery] at hc ⊢
      rcases hv : validateDiscoveryConfig c0 with e | c2 <;> rw [hv] at hc <;>
        simp at hc
      simp [hv, hc]

/-- Witness for C9: a live cached document plus a forced refresh that
fetches a valid document ends with the cache overwritten with the fresh
document, and the fetch performed. -/
theorem getDiscoveryConfig_force_refresh_witness :
    (getDiscoveryConfig true (some ⟨some "https://old.example/", some "https://old.example/jwks"⟩)
      (.doc ⟨some "https://idp.example/", some "https://idp.example/jwks"⟩)).2.1 =
      some ⟨some "https://idp.example/", some "https://idp.example/jwks"⟩ :=
  (getDiscoveryConfig_force_refresh
      (some ⟨some "https://old.example/", some "https://old.example/jwks"⟩)
      (.doc ⟨some "https://idp.example/", some "https://idp.example/jwks"⟩)).2
    ⟨some "https://idp.example/", some "https://idp.example/jwks"⟩ rfl

/-- Counterexample for claim C1: the claim says at most one refreshCache
operation is triggered by a getKey call before it fails with
JWKS_KEY_NOT_FOUND, regardless of the initial cache state.  From the
concrete empty cache whose fetches deliver a set lacking the requested
kid, the call fails with JWKS_KEY_NOT_FOUND after triggering two
refreshes: one at the initial cache miss and a second forced one when the
kid is missing from the freshly cached set. -/
theorem getKey_two_refreshes_counterexample :
    getKey "k1" 1000 staleEnvC1 = (.err (keyNotFoundError "k1"), 2) ∧ ¬(2 ≤ 1) :=
  ⟨rfl, by decide⟩

/-- Claim C1 as amended: a getKey call triggers at most two refreshCache
operations; when the initial cache read returns a live set that lacks the
kid, exactly one forced refresh is triggered, and if the refreshed set
still lacks the kid the call fails with JWKS_KEY_NOT_FOUND. -/
theorem getKey_refresh_bound (kid : String) (ttl : Nat) (env : GetKeyEnv) :
    (getKey kid ttl env).2 ≤ 2 ∧
    (kid ≠ "" → ∀ (v : List Jwk) (t : Nat) (keys : List Jwk),
      env.cache0 = some (v, t) → env.expire1 = false →
      findKey v kid = none →
      env.fetch2 = .body (.json ⟨.arr keys⟩) → env.expire3 = false →
      findKey keys kid = none →
      getKey kid ttl env = (.err (keyNotFoundError kid), 1)) := by
  constructor
  · by_cases hkid : kid = ""
    · simp [getKey, hkid]
    · rcases h1 : cacheRead env.expire1 env.cache0 with _ | jwks
      · rcases h2 : refreshCache env.fetch1 env.cache0 ttl with ⟨r, c1⟩
        cases r with
        | error e => simp [getKey, hkid, h1, h2]
        | ok u =>
          rcases h3 : cacheRead env.expire2 c1 with _ | jwks
          · simp [getKey, hkid, h1, h2, h3]
          · have := getKeyRescan_count_le kid ttl jwks c1 env.expire3 env.fetch2 1
            simp [getKey, hkid, h1, h2, h3]
            omega
      · have := getKeyRescan_count_le kid ttl jwks env.cache0 env.expire3 env.fetch2 0
        simp [getKey, hkid, h1]
        omega
  · intro hkid v t keys hc0 he1 hfv hf2 he3 hfk
    have h1 : cacheRead env.expire1 env.cache0 = some v := by
      simp [cacheRead, he1, hc0]
    have h2 : refreshCache env.fetch2 env.cache0 ttl = (.ok (), some (keys, ttl)) := by
      rw [hf2]
      rfl
    have h3 : cacheRead env.expire3 (some (keys, ttl)) = some keys := by
      simp [cacheRead, he3]
    simp [getKey, hkid, h1, getKeyRescan, hfv, h2, h3, hfk]

/-- Witness for C1 as amended: from the concrete live cache whose set
lacks the kid and whose forced refresh also lacks it, exactly one refresh
is triggered and the call fails with JWKS_KEY_NOT_FOUND. -/
theorem getKey_refresh_bound_witness :
    getKey "k1" 5 liveEnvC1 = (.err (keyNotFoundError "k1"), 1) :=
  (getKey_refresh_bound "k1" 5 liveEnvC1).2 (by decide) [⟨"a", "RSA"⟩] 7
    [⟨"b", "RSA"⟩] rfl rfl (by decide) rfl rfl (by decide)

/-- Preservation of the single-flight invariant by every event. -/
theorem sfStep_preserves_inv (s : SfState) (e : SfEv) (h : sfInv s) :
    sfInv (sfStep s e) := by
  cases e with
  | trigger =>
    rcases hm : s.marker with _ | id
    · have hr : s.running = [] := by simpa [sfInv, hm] using h
      simp [sfInv, sfStep, sfTrigger, hm, hr]
    · simpa [sfInv, sfStep, sfTrigger, hm] using h
  | complete b =>
    rcases hm : s.marker with _ | id
    · simpa [sfInv, sfStep, sfComplete, hm] using h
    · have hr : s.running = [id] := by simpa [sfInv, hm] using h
      simp [sfInv, sfStep, sfComplete, hm, hr]

/-- Every state reachable from a fresh client satisfies the single-flight
invariant. -/
theorem sfRun_inv (evs : List SfEv) : sfInv (sfRun evs) := by
  have main : ∀ (l : List SfEv) (s : SfState), sfInv s → sfInv (l.foldl sfStep s) := by
    intro l
    induction l with
    | nil => exact fun s h => h
    | cons e rest ih => exact fun s h => ih _ (sfStep_preserves_inv s e h)
  exact main evs sfInit rfl

/-- Claim C2: in every reachable state of the ensureJWKS single-flight
system at most one refreshCache operation is in flight; a trigger that
finds an operation pending awaits exactly that operation and changes
nothing; every completion, success or failure alike, clears the in-flight
marker; and after any completion the next trigger always starts a fresh
operation. -/
theorem ensureJWKS_single_flight (evs : List SfEv) :
    (sfRun evs).running.length ≤ 1 ∧
    (∀ id, (sfRun evs).marker = some id → sfTrigger (sfRun evs) = (sfRun evs, id)) ∧
    (∀ b, (sfStep (sfRun evs) (.complete b)).marker = none) ∧
    (∀ b, (sfTrigger (sfStep (sfRun evs) (.complete b))).1.marker =
      some (sfRun evs).nextId) := by
  have hinv := sfRun_inv evs
  refine ⟨?_, ?_, ?_, ?_⟩
  · rcases hm : (sfRun evs).marker with _ | id
    · have hr : (sfRun evs).running = [] := by simpa [sfInv, hm] using hinv
      simp [hr]
    · have hr : (sfRun evs).running = [id] := by simpa [sfInv, hm] using hinv
      simp [hr]
  · intro id hm
    simp [sfTrigger, hm]
  · intro b
    rcases hm : (sfRun evs).marker with _ | id <;> simp [sfStep, sfComplete, hm]
  · intro b
    rcases hm : (sfRun evs).marker with _ | id <;>
      simp [sfStep, sfComplete, sfTrigger, hm]

/-- Witness for C2: after one trigger from the fresh state the marker
holds operation 0, and a further trigger joins exactly that operation,
changing nothing. -/
theorem ensureJWKS_single_flight_witness :
    (sfRun [SfEv.trigger]).marker = some 0 ∧
    sfTrigger (sfRun [SfEv.trigger]) = (sfRun [SfEv.trigger], 0) :=
  ⟨rfl, (ensureJWKS_single_flight [SfEv.trigger]).2.1 0 rfl⟩

end Oidc
